/-
Verification of the media-library scanning engine
(backend/services/library_scanner.py and its collaborators).

The Python source is shallowly embedded: dynamic dictionaries become
records with `Option` fields (`dict.get(k, default)` becomes `Option.getD`),
Python dict objects used only through item-assignment and `.get` become
association lists where a new binding is consed to the front and lookup
takes the first match (last write wins, as in a Python dict), and code
that may raise becomes `Except String`.  All definitions follow the
source; definitions whose names end in `Spec` or `Claim` restate the
specification's words, for comparison against the source embedding.
-/
import Mathlib

namespace MediaManager

/-- Python value appearing in a field-difference record
(`newValue` / `existingValue` can be an int, a string, or `None`). -/
inductive PyVal where
  | vInt (i : Int)
  | vStr (s : String)
  | vNone
  deriving DecidableEq, Repr

/-- A scan-result or existing-inventory record
(`{'type': …, 'path': …, 'libraryPath': …, 'metadata': {'size': …,
'modified_time': …}, 'media_type': …}`).  Missing dict keys are `none`;
`libraryPath` defaults to `""` exactly as `item.get('libraryPath', '')`. -/
structure MediaItem where
  itemType : String
  path : String
  libraryPath : String := ""
  size : Option Int := none
  modifiedTime : Option Int := none
  mediaType : Option String := none
  deriving DecidableEq, Repr

/-- One field-level difference record produced by `_compare_item_data`. -/
structure FieldDiff where
  field : String
  newValue : PyVal
  existingValue : PyVal
  deriving DecidableEq, Repr

/-- One entry of a duplicate report's `differences` list. -/
structure DiffEntry where
  path : String
  itemType : String
  differences : List FieldDiff
  deriving DecidableEq, Repr

/-- The duplicate report returned by the duplicate checkers
(`{"duplicatesFound": …, "newItems": …, "differences": […], "error"?: …}`). -/
structure DupReport where
  duplicatesFound : Nat
  newItems : Nat
  differences : List DiffEntry
  error : Option String := none
  deriving DecidableEq, Repr

/-- `_compare_item_data` (library_scanner.py lines 637-675): compares
`metadata.size` (default 0), `metadata.modified_time` (default None) and
the top-level `media_type` (default None), appending a difference record
for each unequal field, in that order. -/
def compareItemData (newItem existingItem : MediaItem) : List FieldDiff :=
  let sizeDiffs :=
    if newItem.size.getD 0 ≠ existingItem.size.getD 0 then
      [⟨"size", PyVal.vInt (newItem.size.getD 0), PyVal.vInt (existingItem.size.getD 0)⟩]
    else []
  let mtimeDiffs :=
    if newItem.modifiedTime ≠ existingItem.modifiedTime then
      [⟨"modified_time",
        (newItem.modifiedTime.map PyVal.vInt).getD PyVal.vNone,
        (existingItem.modifiedTime.map PyVal.vInt).getD PyVal.vNone⟩]
    else []
  let mtypeDiffs :=
    if newItem.mediaType ≠ existingItem.mediaType then
      [⟨"media_type",
        (newItem.mediaType.map PyVal.vStr).getD PyVal.vNone,
        (existingItem.mediaType.map PyVal.vStr).getD PyVal.vNone⟩]
    else []
  sizeDiffs ++ mtimeDiffs ++ mtypeDiffs

/-- Composite duplicate-detection key `f"{libraryPath}:{path}"`. -/
def compositeKey (libraryPath p : String) : String :=
  libraryPath ++ ":" ++ p

/-- A Python dict used through item assignment and `.get`: bindings are
consed to the front so that lookup by first match returns the most
recent assignment for a key. -/
def dictGet (m : List (String × MediaItem)) (k : String) : Option MediaItem :=
  (m.find? (fun p => p.1 == k)).map (·.2)

/-- The loop `for item in (existing_files or []): existing_file_keys[key] = item`
building the composite-key dict in `_check_duplicates_with_existing`. -/
def buildKeyDict (items : List MediaItem) : List (String × MediaItem) :=
  items.foldl (fun m it => (compositeKey it.libraryPath it.path, it) :: m) []

/-- Accumulator of the classification loop shared by both duplicate
checkers: `(duplicates_found, new_items, differences)`. -/
structure ReconcileAcc where
  duplicatesFound : Nat
  newItems : Nat
  differences : List DiffEntry
  deriving DecidableEq, Repr

/-- One iteration of `for item in scan_results` (lines 523-551): build the
item's composite key from the current scan's library path, look it up in
the key dict matching the item's kind, and classify.  Items whose `type`
is neither `'file'` nor `'directory'` hit the `continue`. -/
def reconcileStep (libraryPath : String)
    (fileKeys dirKeys : List (String × MediaItem))
    (acc : ReconcileAcc) (item : MediaItem) : ReconcileAcc :=
  let itemKey := compositeKey libraryPath item.path
  if item.itemType = "file" ∨ item.itemType = "directory" then
    let existingItem :=
      if item.itemType = "file" then dictGet fileKeys itemKey
      else dictGet dirKeys itemKey
    match existingItem with
    | some e =>
        let differencesFound := compareItemData item e
        { acc with
          duplicatesFound := acc.duplicatesFound + 1
          differences :=
            if differencesFound ≠ [] then
              acc.differences ++ [⟨item.path, item.itemType, differencesFound⟩]
            else acc.differences }
    | none => { acc with newItems := acc.newItems + 1 }
  else acc

/-- `_check_duplicates_with_existing` (lines 490-571): offline-mode
duplicate checking against caller-provided existing data.  The
`user_id` argument is accepted and unused, as in the source.  The inner
`try` body cannot raise in this embedding, so the source's fallback
error report is unreachable here. -/
def checkDuplicatesWithExisting (scanResults : List MediaItem)
    (userId : String) (libraryPath : String)
    (existingFiles existingDirectories : Option (List MediaItem)) : DupReport :=
  let _ := userId
  let existingFileKeys := buildKeyDict (existingFiles.getD [])
  let existingDirKeys := buildKeyDict (existingDirectories.getD [])
  let acc := scanResults.foldl (reconcileStep libraryPath existingFileKeys existingDirKeys)
    ⟨0, 0, []⟩
  { duplicatesFound := acc.duplicatesFound
    newItems := acc.newItems
    differences := acc.differences
    error := none }

/-- The body of the effective `_check_duplicates` (lines 834-912; a second
definition in the class body that shadows the one at line 573).  The
Firestore snapshots obtained from `get_existing_file_paths` /
`get_existing_directory_paths` are Python dicts mapping a plain path to
the record, so `for file_path in existing_files` iterates the *keys*
(strings), and `file_path.get('libraryPath', '')` raises
`AttributeError` on the first iteration whenever the dict is non-empty:
the key-dict construction is embedded as an `Except` that fails on any
non-empty snapshot. -/
def buildKeysFromDictKeys (d : List (String × MediaItem)) :
    Except String (List (String × MediaItem)) :=
  match d with
  | [] => Except.ok []
  | _ :: _ => Except.error "AttributeError: str object has no attribute get"

/-- The `try` body of the effective `_check_duplicates`. -/
def checkDuplicatesOnlineBody (scanResults : List MediaItem)
    (existingFiles existingDirs : List (String × MediaItem))
    (libraryPath : String) : Except String DupReport := do
  let existingFileKeys ← buildKeysFromDictKeys existingFiles
  let existingDirKeys ← buildKeysFromDictKeys existingDirs
  let acc := scanResults.foldl (reconcileStep libraryPath existingFileKeys existingDirKeys)
    ⟨0, 0, []⟩
  Except.ok
    { duplicatesFound := acc.duplicatesFound
      newItems := acc.newItems
      differences := acc.differences
      error := none }

/-- The effective `_check_duplicates` (lines 834-912): online-mode
duplicate checking against the Firestore snapshots, with the `except`
clause returning the degraded report
`{"duplicatesFound": 0, "newItems": len(scan_results), "differences": [], "error": …}`. -/
def checkDuplicatesOnline (scanResults : List MediaItem)
    (existingFiles existingDirs : List (String × MediaItem))
    (libraryPath : String) : DupReport :=
  match checkDuplicatesOnlineBody scanResults existingFiles existingDirs libraryPath with
  | Except.ok r => r
  | Except.error e =>
      { duplicatesFound := 0
        newItems := scanResults.length
        differences := []
        error := some e }

/-- `get_existing_file_paths` / `get_existing_directory_paths`
(firestore_service.py lines 364-430): the snapshot handed to online-mode
duplicate checking is a dict mapping each record's plain `path` to the
record, skipping records with an empty path (later records overwrite
earlier ones with the same path, hence the front-cons). -/
def snapshotByPath (records : List MediaItem) : List (String × MediaItem) :=
  records.foldl (fun m it => if it.path ≠ "" then (it.path, it) :: m else m) []

/-- Sample discovered file item (path `/m/a.mp4`, size 5). -/
def sampleFile : MediaItem := ⟨"file", "/m/a.mp4", "", some 5, some 10, some "movie"⟩

/-- Existing-inventory record identical to `sampleFile`, stored under
library root `/lib-a`. -/
def sampleExisting : MediaItem := ⟨"file", "/m/a.mp4", "/lib-a", some 5, some 10, some "movie"⟩

/-- Existing-inventory record like `sampleExisting` but with size 7. -/
def sampleExistingBigger : MediaItem := ⟨"file", "/m/a.mp4", "/lib-a", some 7, some 10, some "movie"⟩

/-- Discovered file at `/movies/x.mp4` (the spec's cross-library scenario). -/
def scenarioFound : MediaItem := ⟨"file", "/movies/x.mp4", "", some 5, some 10, some "movie"⟩

/-- Existing record for `/movies/x.mp4` stored under `libraryRoot=/lib-a`. -/
def scenarioExisting : MediaItem := ⟨"file", "/movies/x.mp4", "/lib-a", some 5, some 10, some "movie"⟩

/-- Sample discovered directory item (path `/m/shows`). -/
def sampleDirectory : MediaItem := ⟨"directory", "/m/shows", "", none, some 10, some "series"⟩

/-- Existing-inventory record identical to `sampleDirectory`, stored
under library root `/lib-a`. -/
def sampleExistingDirectory : MediaItem :=
  ⟨"directory", "/m/shows", "/lib-a", none, some 10, some "series"⟩

theorem dictGet_cons (m : List (String × MediaItem)) (k key : String) (it : MediaItem) :
    dictGet ((key, it) :: m) k = if key == k then some it else dictGet m k := by
  simp only [dictGet, List.find?_cons]
  by_cases h : key == k
  · simp [h]
  · simp [h]

theorem dictGet_foldl_isSome (k : String) (items : List MediaItem) :
    ∀ init,
      (dictGet (items.foldl
        (fun m it => (compositeKey it.libraryPath it.path, it) :: m) init) k).isSome
      = (items.any (fun e => compositeKey e.libraryPath e.path == k)
          || (dictGet init k).isSome) := by
  induction items with
  | nil => simp
  | cons x xs ih =>
      intro init
      simp only [List.foldl_cons, ih, List.any_cons, dictGet_cons]
      by_cases h : compositeKey x.libraryPath x.path == k
      · simp [h]
      · simp [h]

theorem dictGet_buildKeyDict_isSome (items : List MediaItem) (k : String) :
    (dictGet (buildKeyDict items) k).isSome
      = items.any (fun e => compositeKey e.libraryPath e.path == k) := by
  have h := dictGet_foldl_isSome k items []
  simpa [buildKeyDict, dictGet] using h

/-- A library root is recoverable from a composite key together with the
item path: equal keys built from the same path force equal roots. -/
theorem compositeKey_root_inj {a b p : String}
    (h : compositeKey a p = compositeKey b p) : a = b := by
  unfold compositeKey at h
  have hd : (a ++ ":" ++ p).data = (b ++ ":" ++ p).data := congrArg String.data h
  simp only [String.data_append, List.append_assoc] at hd
  exact String.ext (List.append_cancel_right hd)

/-- Whether some record of `existing` has the same composite key as a
discovered item keyed by the current scan's library root. -/
def hasCompositeMatch (libraryPath : String) (existing : List MediaItem)
    (it : MediaItem) : Bool :=
  existing.any (fun e =>
    compositeKey e.libraryPath e.path == compositeKey libraryPath it.path)

/-- The specification's duplicate criterion: an item counts as a
duplicate exactly when an existing record of the same kind shares its
composite key. -/
def isReportedDuplicate (libraryPath : String)
    (existingFiles existingDirs : List MediaItem) (it : MediaItem) : Bool :=
  (it.itemType == "file" && hasCompositeMatch libraryPath existingFiles it)
    || (it.itemType == "directory" && hasCompositeMatch libraryPath existingDirs it)

/-- The classification loop's lookup outcome for one item. -/
def lookupHit (libraryPath : String) (fk dk : List (String × MediaItem))
    (it : MediaItem) : Bool :=
  (it.itemType == "file"
      && (dictGet fk (compositeKey libraryPath it.path)).isSome)
    || (it.itemType == "directory"
      && (dictGet dk (compositeKey libraryPath it.path)).isSome)

theorem reconcileStep_duplicatesFound (lib : String)
    (fk dk : List (String × MediaItem)) (acc : ReconcileAcc) (it : MediaItem) :
    (reconcileStep lib fk dk acc it).duplicatesFound =
      acc.duplicatesFound + (if lookupHit lib fk dk it then 1 else 0) := by
  unfold reconcileStep lookupHit
  by_cases hf : it.itemType = "file"
  · cases h : dictGet fk (compositeKey lib it.path) <;> simp [hf, h]
  · by_cases hd : it.itemType = "directory"
    · cases h : dictGet dk (compositeKey lib it.path) <;> simp [hf, hd, h]
    · simp [hf, hd]

theorem foldl_duplicatesFound (lib : String) (fk dk : List (String × MediaItem)) :
    ∀ (items : List MediaItem) (acc : ReconcileAcc),
      (items.foldl (reconcileStep lib fk dk) acc).duplicatesFound =
        acc.duplicatesFound + (items.filter (fun it => lookupHit lib fk dk it)).length := by
  intro items
  induction items with
  | nil => simp
  | cons x xs ih =>
      intro acc
      simp only [List.foldl_cons, ih, List.filter_cons]
      rw [reconcileStep_duplicatesFound]
      by_cases h : lookupHit lib fk dk x
      · simp only [h, if_pos, List.length_cons]
        omega
      · simp [h]

theorem lookupHit_buildKeyDict (lib : String) (efs eds : List MediaItem)
    (it : MediaItem) :
    lookupHit lib (buildKeyDict efs) (buildKeyDict eds) it
      = isReportedDuplicate lib efs eds it := by
  unfold lookupHit isReportedDuplicate hasCompositeMatch
  rw [dictGet_buildKeyDict_isSome, dictGet_buildKeyDict_isSome]

/-- C1.  Composite-key invariant of reconciliation: the duplicate count
of `_check_duplicates_with_existing` is exactly the number of discovered
items for which some existing item of the same kind carries an equal
composite key built from the current scan's library root and the item's
path (so an item is reported as a duplicate only under such a match, and
two items with identical path but different library roots are never
mutual duplicates); in particular a single found file at path `p`
scanned under root `rootB` against an inventory holding `p` only under a
different root `rootA` yields `duplicatesFound = 0` and `newItems = 1`. -/
theorem c1_composite_key_invariant :
    (∀ (items efs eds : List MediaItem) (u lib : String),
      (checkDuplicatesWithExisting items u lib (some efs) (some eds)).duplicatesFound
        = (items.filter (isReportedDuplicate lib efs eds)).length) ∧
    (∀ (rootA rootB p u : String) (it e : MediaItem), rootA ≠ rootB →
      it.itemType = "file" → it.path = p → e.path = p → e.libraryPath = rootA →
      checkDuplicatesWithExisting [it] u rootB (some [e]) (some [])
        = ⟨0, 1, [], none⟩) := by
  constructor
  · intro items efs eds u lib
    unfold checkDuplicatesWithExisting
    simp only [Option.getD_some]
    rw [foldl_duplicatesFound]
    simp only [Nat.zero_add]
    congr 1
    exact List.filter_congr (fun it _ => lookupHit_buildKeyDict lib efs eds it)
  · intro rootA rootB p u it e hne hty hip hep helib
    have hkeyP : compositeKey e.libraryPath e.path ≠ compositeKey rootB it.path := by
      intro hcontra
      rw [helib, hep, hip] at hcontra
      exact hne (compositeKey_root_inj hcontra)
    unfold checkDuplicatesWithExisting buildKeyDict reconcileStep
    simp [hty, dictGet_cons, dictGet, hkeyP]

/-- C1 witness: the spec's concrete scenario — scanning `/lib-b` with a
found item at `/movies/x.mp4` while the inventory holds `/movies/x.mp4`
only under `libraryRoot=/lib-a` gives no duplicate and one new item. -/
theorem c1_composite_key_invariant_witness :
    checkDuplicatesWithExisting [scenarioFound] "user1" "/lib-b"
      (some [scenarioExisting]) (some []) = ⟨0, 1, [], none⟩ :=
  c1_composite_key_invariant.2 "/lib-a" "/lib-b" "/movies/x.mp4" "user1"
    scenarioFound scenarioExisting (by decide) rfl rfl rfl rfl

/-- C2.  Mode divergence (refuting mode equivalence): on the snapshot
holding a single existing record identical to the single scanned file,
offline mode (`_check_duplicates_with_existing`) reports the duplicate,
while online mode (the effective `_check_duplicates`, consuming the same
snapshot through `get_existing_file_paths`) raises `AttributeError`
while iterating the snapshot dict's keys and degrades to a report with
no duplicates, one "new" item, and an error marker. -/
theorem c2_mode_divergence_on_nonempty_snapshot :
    checkDuplicatesWithExisting [sampleFile] "u" "/lib-a"
        (some [sampleExisting]) (some []) = ⟨1, 0, [], none⟩ ∧
    (checkDuplicatesOnline [sampleFile] (snapshotByPath [sampleExisting]) []
        "/lib-a").duplicatesFound = 0 ∧
    (checkDuplicatesOnline [sampleFile] (snapshotByPath [sampleExisting]) []
        "/lib-a").newItems = 1 ∧
    (checkDuplicatesOnline [sampleFile] (snapshotByPath [sampleExisting]) []
        "/lib-a").error.isSome = true := by
  refine ⟨by decide, by decide, by decide, by decide⟩

/-- C6.  Duplicate counting and field-level diff, for every discovered
item of either kind: any item — file or directory, at any point of any
run — whose composite key matches an existing item of the same kind
increments `duplicatesFound` by exactly one regardless of whether any
compared field differs, and contributes a differences entry exactly when
the diff is non-empty; the diff compares exactly the fields `size`,
`modified_time` and `media_type`; an exact duplicate (all three equal)
yields an empty diff, a duplicate differing only in size yields exactly
one field record with field `"size"`, and on the singleton input of
either kind the report is `duplicatesFound = 1`, `newItems = 0`, with
the matching differences list. -/
theorem c6_duplicate_counting_and_field_diff :
    (∀ (lib : String) (efs eds : List MediaItem) (acc : ReconcileAcc) (it : MediaItem),
      isReportedDuplicate lib efs eds it = true →
      (reconcileStep lib (buildKeyDict efs) (buildKeyDict eds) acc it).duplicatesFound
        = acc.duplicatesFound + 1) ∧
    (∀ (lib : String) (fk dk : List (String × MediaItem)) (acc : ReconcileAcc)
        (it e : MediaItem),
      (it.itemType = "file" ∧ dictGet fk (compositeKey lib it.path) = some e) ∨
        (it.itemType = "directory" ∧ dictGet dk (compositeKey lib it.path) = some e) →
      (reconcileStep lib fk dk acc it).differences
        = if compareItemData it e = [] then acc.differences
          else acc.differences ++ [⟨it.path, it.itemType, compareItemData it e⟩]) ∧
    (∀ it e : MediaItem, ∀ d ∈ compareItemData it e,
      d.field = "size" ∨ d.field = "modified_time" ∨ d.field = "media_type") ∧
    (∀ it e : MediaItem,
      it.size.getD 0 = e.size.getD 0 → it.modifiedTime = e.modifiedTime →
      it.mediaType = e.mediaType → compareItemData it e = []) ∧
    (∀ it e : MediaItem,
      it.size.getD 0 ≠ e.size.getD 0 → it.modifiedTime = e.modifiedTime →
      it.mediaType = e.mediaType →
      compareItemData it e
        = [⟨"size", PyVal.vInt (it.size.getD 0), PyVal.vInt (e.size.getD 0)⟩]) ∧
    (∀ (it e : MediaItem) (u lib : String),
      it.itemType = "file" →
      compositeKey e.libraryPath e.path = compositeKey lib it.path →
      checkDuplicatesWithExisting [it] u lib (some [e]) (some [])
        = { duplicatesFound := 1
            newItems := 0
            differences :=
              if compareItemData it e = [] then []
              else [⟨it.path, it.itemType, compareItemData it e⟩]
            error := none }) ∧
    (∀ (it e : MediaItem) (u lib : String),
      it.itemType = "directory" →
      compositeKey e.libraryPath e.path = compositeKey lib it.path →
      checkDuplicatesWithExisting [it] u lib (some []) (some [e])
        = { duplicatesFound := 1
            newItems := 0
            differences :=
              if compareItemData it e = [] then []
              else [⟨it.path, it.itemType, compareItemData it e⟩]
            error := none }) := by
  refine ⟨?_, ?_, ?_, ?_, ?_, ?_, ?_⟩
  · intro lib efs eds acc it h
    rw [reconcileStep_duplicatesFound, lookupHit_buildKeyDict, h]
    simp
  · intro lib fk dk acc it e h
    rcases h with ⟨hty, hget⟩ | ⟨hty, hget⟩ <;>
      · unfold reconcileStep
        by_cases hd : compareItemData it e = [] <;> simp [hty, hget, hd]
  · intro it e d hd
    unfold compareItemData at hd
    simp only [List.mem_append] at hd
    rcases hd with (h | h) | h <;> split_ifs at h <;> simp at h <;>
      subst h <;> simp
  · intro it e h1 h2 h3
    simp [compareItemData, h1, h2, h3]
  · intro it e h1 h2 h3
    simp [compareItemData, h1, h2, h3]
  · intro it e u lib hty hkey
    unfold checkDuplicatesWithExisting buildKeyDict reconcileStep
    simp [hty, dictGet_cons, dictGet, hkey]
  · intro it e u lib hty hkey
    unfold checkDuplicatesWithExisting buildKeyDict reconcileStep
    simp [hty, dictGet_cons, dictGet, hkey]

/-- C6 witness: a scanned file against an existing record differing only
in size is one duplicate with exactly one differences entry for the
field `"size"`; a scanned directory against an identical existing
directory record is one duplicate with an empty differences list; and a
matched file in the middle of a run (accumulator already holding 4
duplicates, 2 new items) increments `duplicatesFound` to exactly 5. -/
theorem c6_duplicate_counting_and_field_diff_witness :
    checkDuplicatesWithExisting [sampleFile] "u" "/lib-a"
        (some [sampleExistingBigger]) (some [])
      = ⟨1, 0, [⟨"/m/a.mp4", "file", [⟨"size", PyVal.vInt 5, PyVal.vInt 7⟩]⟩], none⟩ ∧
    checkDuplicatesWithExisting [sampleDirectory] "u" "/lib-a"
        (some []) (some [sampleExistingDirectory])
      = ⟨1, 0, [], none⟩ ∧
    (reconcileStep "/lib-a" (buildKeyDict [sampleExistingBigger]) (buildKeyDict [])
        ⟨4, 2, []⟩ sampleFile).duplicatesFound = 5 := by
  have h := c6_duplicate_counting_and_field_diff
  refine ⟨(h.2.2.2.2.2.1 sampleFile sampleExistingBigger "u" "/lib-a" rfl rfl).trans
      (by decide),
    (h.2.2.2.2.2.2 sampleDirectory sampleExistingDirectory "u" "/lib-a" rfl rfl).trans
      (by decide),
    (h.1 "/lib-a" [sampleExistingBigger] [] ⟨4, 2, []⟩ sampleFile (by decide)).trans rfl⟩

/-- An entry of `progress.errors` (`{'type': …, 'message': …, 'timestamp': …}`;
the wall-clock timestamp is outside the embedding). -/
structure ScanErr where
  errType : String
  message : String
  deriving DecidableEq, Repr

/-- The fields of `ScanProgress` written by the tail of `_run_scan_async`
(lines 238-313).  `endTimeSet` abstracts `end_time` being assigned a
wall-clock value. -/
structure EngineState where
  totalItems : Nat
  processedItems : Nat
  scanResults : List MediaItem
  filesFound : Nat
  directoriesFound : Nat
  errors : List ScanErr
  duplicateReport : Option DupReport
  status : String
  endTimeSet : Bool
  deriving DecidableEq, Repr

/-- A fresh `ScanProgress` as built by `start_scan` (status `scanning`,
empty errors and results, no report, no end time). -/
def initEngineState : EngineState :=
  ⟨0, 0, [], 0, 0, [], none, "scanning", false⟩

/-- Python truthiness of the optional `user_id` argument
(`if check_duplicates and user_id:`): `None` and `""` are falsy. -/
def pyTruthy (userId : Option String) : Bool :=
  match userId with
  | none => false
  | some s => !(s == "")

/-- The `duplicate_paths` set built at lines 260-273: paths of report
entries that carried differences, plus every scan result whose plain
path is a key of the corresponding freshly fetched Firestore snapshot
(note: plain path, not composite key). -/
def duplicatePathsOf (report : DupReport) (scanResults : List MediaItem)
    (fsFiles fsDirs : List (String × MediaItem)) : List String :=
  report.differences.map (·.path) ++
    scanResults.filterMap (fun r =>
      if r.itemType = "file" ∧ (dictGet fsFiles r.path).isSome then some r.path
      else if r.itemType = "directory" ∧ (dictGet fsDirs r.path).isSome then some r.path
      else none)

/-- Post-reconciliation filtering (lines 258-293): when the report is
non-trivial (`duplicatesFound > 0`; the report dict itself is always
truthy), keep only scan results whose path is not in `duplicate_paths`
and recount files and directories. -/
def applyDuplicateFilter (st : EngineState) (report : DupReport)
    (fsFiles fsDirs : List (String × MediaItem)) : EngineState :=
  if report.duplicatesFound > 0 then
    let dupPaths := duplicatePathsOf report st.scanResults fsFiles fsDirs
    let filtered := st.scanResults.filter (fun r => !(dupPaths.contains r.path))
    { st with
      scanResults := filtered
      filesFound := (filtered.filter (fun r => r.itemType == "file")).length
      directoriesFound := (filtered.filter (fun r => r.itemType == "directory")).length }
  else st

/-- Tail of `_run_scan_async` (lines 238-313), parameterized by the
outcome of the awaited duplicate-checking call: `Except.error` models an
exception propagating out of that call into the `except` clause at line
303, which appends a `duplicate_check_error` entry and continues; either
way the function ends by setting `status = "completed"` and `end_time`. -/
def runScanFinishWith (walkResults : List MediaItem) (checkDuplicates : Bool)
    (userId : Option String) (outcome : Except String DupReport)
    (fsFiles fsDirs : List (String × MediaItem)) (st0 : EngineState) : EngineState :=
  let st1 : EngineState := { st0 with
    scanResults := walkResults
    filesFound := (walkResults.filter (fun r => r.itemType == "file")).length
    directoriesFound := (walkResults.filter (fun r => r.itemType == "directory")).length }
  let st2 :=
    if checkDuplicates && pyTruthy userId then
      match outcome with
      | Except.ok report =>
          applyDuplicateFilter { st1 with duplicateReport := some report }
            report fsFiles fsDirs
      | Except.error e =>
          { st1 with errors := st1.errors ++ [⟨"duplicate_check_error", e⟩] }
    else st1
  { st2 with status := "completed", endTimeSet := true }

/-- Mode selection (lines 246-253): offline when the caller provided
existing files or directories, online otherwise.  Neither checker raises
in this embedding (both swallow exceptions internally). -/
def dupCheckOutcome (walkResults : List MediaItem) (userId : String)
    (libraryPath : String) (existingFiles existingDirectories : Option (List MediaItem))
    (fsFiles fsDirs : List (String × MediaItem)) : Except String DupReport :=
  if existingFiles ≠ none ∨ existingDirectories ≠ none then
    Except.ok (checkDuplicatesWithExisting walkResults userId libraryPath
      existingFiles existingDirectories)
  else
    Except.ok (checkDuplicatesOnline walkResults fsFiles fsDirs libraryPath)

/-- Tail of `_run_scan_async` with the duplicate-check outcome computed
from the source's own mode selection. -/
def runScanFinish (walkResults : List MediaItem) (checkDuplicates : Bool)
    (userId : Option String) (libraryPath : String)
    (existingFiles existingDirectories : Option (List MediaItem))
    (fsFiles fsDirs : List (String × MediaItem)) (st0 : EngineState) : EngineState :=
  runScanFinishWith walkResults checkDuplicates userId
    (dupCheckOutcome walkResults (userId.getD "") libraryPath
      existingFiles existingDirectories fsFiles fsDirs)
    fsFiles fsDirs st0

/-- C10.  Implicit caller-id gate: a scan with `check_duplicates = true`
but no `user_id` runs no reconciliation at all — the scan completes with
no duplicate report and unfiltered scan results — even when offline
existing data was explicitly provided. -/
theorem c10_no_user_id_skips_duplicate_checking
    (walkResults efsL edsL : List MediaItem) (lib : String)
    (fsFiles fsDirs : List (String × MediaItem)) (st0 : EngineState)
    (h0 : st0.duplicateReport = none) :
    (runScanFinish walkResults true none lib (some efsL) (some edsL)
        fsFiles fsDirs st0).duplicateReport = none ∧
    (runScanFinish walkResults true none lib (some efsL) (some edsL)
        fsFiles fsDirs st0).scanResults = walkResults ∧
    (runScanFinish walkResults true none lib (some efsL) (some edsL)
        fsFiles fsDirs st0).errors = st0.errors ∧
    (runScanFinish walkResults true none lib (some efsL) (some edsL)
        fsFiles fsDirs st0).status = "completed" := by
  unfold runScanFinish runScanFinishWith pyTruthy
  simp [h0]

/-- C10 witness: concrete instance with one scanned file and offline
existing data supplied but no caller id. -/
theorem c10_no_user_id_skips_duplicate_checking_witness :
    (runScanFinish [sampleFile] true none "/lib-a" (some [sampleExisting]) (some [])
        [] [] initEngineState).duplicateReport = none ∧
    (runScanFinish [sampleFile] true none "/lib-a" (some [sampleExisting]) (some [])
        [] [] initEngineState).scanResults = [sampleFile] ∧
    (runScanFinish [sampleFile] true none "/lib-a" (some [sampleExisting]) (some [])
        [] [] initEngineState).errors = [] ∧
    (runScanFinish [sampleFile] true none "/lib-a" (some [sampleExisting]) (some [])
        [] [] initEngineState).status = "completed" :=
  c10_no_user_id_skips_duplicate_checking [sampleFile] [sampleExisting] []
    "/lib-a" [] [] initEngineState rfl

/-- C7.  Reconciliation failure is non-fatal and atomic: when the
duplicate-checking call raises, the scan still completes, a
`duplicate_check_error` entry is appended to the errors list, no
duplicate report is stored, and the walk's scan results and counters are
unchanged by the failed reconciliation. -/
theorem c7_reconciliation_failure_nonfatal
    (walkResults : List MediaItem) (u msg : String)
    (fsFiles fsDirs : List (String × MediaItem)) (st0 : EngineState)
    (hu : u ≠ "") (h0 : st0.duplicateReport = none) :
    (runScanFinishWith walkResults true (some u) (Except.error msg)
        fsFiles fsDirs st0).status = "completed" ∧
    (runScanFinishWith walkResults true (some u) (Except.error msg)
        fsFiles fsDirs st0).endTimeSet = true ∧
    (runScanFinishWith walkResults true (some u) (Except.error msg)
        fsFiles fsDirs st0).errors
      = st0.errors ++ [⟨"duplicate_check_error", msg⟩] ∧
    (runScanFinishWith walkResults true (some u) (Except.error msg)
        fsFiles fsDirs st0).duplicateReport = none ∧
    (runScanFinishWith walkResults true (some u) (Except.error msg)
        fsFiles fsDirs st0).scanResults = walkResults ∧
    (runScanFinishWith walkResults true (some u) (Except.error msg)
        fsFiles fsDirs st0).filesFound
      = (walkResults.filter (fun r => r.itemType == "file")).length ∧
    (runScanFinishWith walkResults true (some u) (Except.error msg)
        fsFiles fsDirs st0).totalItems = st0.totalItems ∧
    (runScanFinishWith walkResults true (some u) (Except.error msg)
        fsFiles fsDirs st0).processedItems = st0.processedItems := by
  unfold runScanFinishWith pyTruthy
  simp [hu, h0]

/-- C7 witness: a concrete failing duplicate check on a one-file scan. -/
theorem c7_reconciliation_failure_nonfatal_witness :
    (runScanFinishWith [sampleFile] true (some "u")
        (Except.error "boom") [] [] initEngineState).status = "completed" ∧
    (runScanFinishWith [sampleFile] true (some "u")
        (Except.error "boom") [] [] initEngineState).errors
      = [⟨"duplicate_check_error", "boom"⟩] ∧
    (runScanFinishWith [sampleFile] true (some "u")
        (Except.error "boom") [] [] initEngineState).duplicateReport = none ∧
    (runScanFinishWith [sampleFile] true (some "u")
        (Except.error "boom") [] [] initEngineState).scanResults = [sampleFile] := by
  have h := c7_reconciliation_failure_nonfatal [sampleFile] "u" "boom" [] []
    initEngineState (by decide) rfl
  exact ⟨h.1, h.2.2.1, h.2.2.2.1, h.2.2.2.2.1⟩

/-- C5 refuted.  Post-reconciliation filtering does not keep exactly the
new items: with offline existing data holding an exact duplicate of the
single scanned file (and an empty Firestore snapshot, as when the
service is uninitialized), the reconciler counts one duplicate
(`duplicatesFound = 1 > 0`) with an empty differences list, yet the
engine's filter removes nothing — the exact duplicate stays in
`scan_results`, and `files_found` still counts it. -/
theorem c5_exact_duplicate_not_filtered :
    (runScanFinish [sampleFile] true (some "u") "/lib-a"
        (some [sampleExisting]) (some []) [] [] initEngineState).duplicateReport
      = some ⟨1, 0, [], none⟩ ∧
    (runScanFinish [sampleFile] true (some "u") "/lib-a"
        (some [sampleExisting]) (some []) [] [] initEngineState).scanResults
      = [sampleFile] ∧
    (runScanFinish [sampleFile] true (some "u") "/lib-a"
        (some [sampleExisting]) (some []) [] [] initEngineState).filesFound = 1 := by
  refine ⟨by decide, by decide, by decide⟩

/-- Index of the last occurrence of a character (Python `str.rfind`,
restricted to the uses below). -/
def lastIndexOf (c : Char) : List Char → Option Nat
  | [] => none
  | x :: xs =>
      match lastIndexOf c xs with
      | some i => some (i + 1)
      | none => if x = c then some 0 else none

/-- `os.path.splitext` (posixpath): split at the last dot, unless every
character of the basename before that dot is itself a dot (so names
whose basename consists of leading dots, like `.bashrc`, do not split). -/
def splitext (l : List Char) : List Char × List Char :=
  match lastIndexOf '.' l with
  | none => (l, [])
  | some dotIdx =>
      let filenameStart := match lastIndexOf '/' l with | none => 0 | some i => i + 1
      if ((l.drop filenameStart).take (dotIdx - filenameStart)).any (fun c => c != '.') then
        (l.take dotIdx, l.drop dotIdx)
      else (l, [])

/-- `os.path.splitext(s)[0]`. -/
def splitextRoot (s : String) : String := String.mk (splitext s.data).1

/-- `os.path.splitext(s)[1]`. -/
def splitextExt (s : String) : String := String.mk (splitext s.data).2

/-- Python `str.lower` (ASCII inputs). -/
def toLowerStr (s : String) : String := String.mk (s.data.map Char.toLower)

/-- `settings.supported_video_extensions` (config/settings.py). -/
def supportedVideoExtensions : List String :=
  [".mp4", ".mkv", ".avi", ".mov", ".wmv", ".m4v", ".flv", ".webm"]

/-- `settings.supported_audio_extensions`. -/
def supportedAudioExtensions : List String :=
  [".mp3", ".flac", ".wav", ".aac", ".ogg"]

/-- `settings.supported_subtitle_extensions`. -/
def supportedSubtitleExtensions : List String :=
  [".srt", ".vtt", ".ass", ".ssa", ".sub", ".idx"]

/-- `_is_media_file` (lines 743-748): lowercased extension membership in
the configured video, audio and subtitle extension sets. -/
def isMediaFile (filename : String) : Bool :=
  let extension := toLowerStr (splitextExt filename)
  (supportedVideoExtensions ++ supportedAudioExtensions
    ++ supportedSubtitleExtensions).contains extension

/-- A fixed directory tree: the deterministic filesystem both passes of
a scan walk. -/
inductive FSTree where
  | node (dirName : String) (subdirs : List FSTree) (files : List String) : FSTree
  deriving Repr

/-- Name of the directory at the root of a subtree. -/
def FSTree.dirName : FSTree → String
  | .node n _ _ => n

/-- Python `d.startswith('.')`. -/
def startsWithDot (d : String) : Bool :=
  match d.data with
  | [] => false
  | c :: _ => c = '.'

/-- The directory filter both passes apply in place:
`[d for d in dirs if not d.startswith('.') and d not in ['@eaDir']]`. -/
def keepDirName (d : String) : Bool := !(startsWithDot d) && d != "@eaDir"

/-- One `(root, dirs, files)` triple yielded by `os.walk` after the
in-place directory filter. -/
structure WalkNode where
  dirs : List String
  files : List String
  deriving Repr, DecidableEq

/-- `os.walk` under the mutation pattern both passes share (filter
hidden/system names, clear `dirs` at the depth cutoff).  `fuel` is
`max_scan_depth - depth`: the source computes the depth of the current
root as `root[len(path):].count(os.sep)`, which for a root without a
trailing separator equals the recursion depth, and clears `dirs` when it
reaches `max_scan_depth` — so a subtree is descended into exactly while
fuel remains. -/
def prunedWalk : Nat → FSTree → List WalkNode
  | fuel, FSTree.node _ subs files =>
    let kept := subs.filter (fun c => keepDirName c.dirName)
    ⟨kept.map FSTree.dirName, files⟩ ::
      (match fuel with
       | 0 => []
       | fuel' + 1 => (kept.map (fun c => prunedWalk fuel' c)).flatten)

/-- Loop body of `_count_items_sync` (lines 346-364): add the filtered
directory count and the media-eligible file count of one walk node. -/
def countNodeStep (total : Nat) (node : WalkNode) : Nat :=
  total + node.dirs.length + (node.files.filter isMediaFile).length

/-- `_count_items_sync` over a fixed tree. -/
def countItemsSync (maxDepth : Nat) (t : FSTree) : Nat :=
  (prunedWalk maxDepth t).foldl countNodeStep 0

/-- Loop body of `_scan_directory_sync` (lines 383-432) for one walk
node on a clean, uncancelled run: process each filtered directory and
each media-eligible file (appending the oracle's record when it returns
one, as `_process_directory` / `_process_file` may return `None`),
incrementing `processed_items` — the pair's second component — exactly
once per visited entry regardless of per-item success. -/
def processNodeStep (processDir processFile : String → Option MediaItem)
    (acc : List MediaItem × Nat) (node : WalkNode) : List MediaItem × Nat :=
  let afterDirs := node.dirs.foldl
    (fun a d => ((match processDir d with | some i => a.1 ++ [i] | none => a.1), a.2 + 1))
    acc
  node.files.foldl
    (fun a f =>
      if isMediaFile f then
        ((match processFile f with | some i => a.1 ++ [i] | none => a.1), a.2 + 1)
      else a)
    afterDirs

/-- `_scan_directory_sync` over a fixed tree on a clean run: returns the
collected results and the final `processed_items` count. -/
def scanDirectorySync (maxDepth : Nat)
    (processDir processFile : String → Option MediaItem) (t : FSTree) :
    List MediaItem × Nat :=
  (prunedWalk maxDepth t).foldl (processNodeStep processDir processFile) ([], 0)

theorem dirsFold_snd (processDir : String → Option MediaItem) :
    ∀ (ds : List String) (acc : List MediaItem × Nat),
      (ds.foldl (fun a d =>
        ((match processDir d with | some i => a.1 ++ [i] | none => a.1), a.2 + 1)) acc).2
        = acc.2 + ds.length := by
  intro ds
  induction ds with
  | nil => simp
  | cons x xs ih => intro acc; simp [ih]; omega

theorem filesFold_snd (processFile : String → Option MediaItem) :
    ∀ (fs : List String) (acc : List MediaItem × Nat),
      (fs.foldl (fun a f =>
        if isMediaFile f then
          ((match processFile f with | some i => a.1 ++ [i] | none => a.1), a.2 + 1)
        else a) acc).2
        = acc.2 + (fs.filter isMediaFile).length := by
  intro fs
  induction fs with
  | nil => simp
  | cons x xs ih =>
      intro acc
      by_cases h : isMediaFile x
      · simp [h, ih]; omega
      · simp [h, ih]

theorem processNodeStep_snd (processDir processFile : String → Option MediaItem)
    (acc : List MediaItem × Nat) (node : WalkNode) :
    (processNodeStep processDir processFile acc node).2
      = countNodeStep acc.2 node := by
  unfold processNodeStep countNodeStep
  rw [filesFold_snd, dirsFold_snd]

theorem foldl_process_snd (processDir processFile : String → Option MediaItem) :
    ∀ (ns : List WalkNode) (acc : List MediaItem × Nat),
      (ns.foldl (processNodeStep processDir processFile) acc).2
        = ns.foldl countNodeStep acc.2 := by
  intro ns
  induction ns with
  | nil => intro acc; rfl
  | cons x xs ih =>
      intro acc
      simp only [List.foldl_cons, ih, processNodeStep_snd]

/-- C4.  Count/process agreement: over any fixed directory tree, any
depth limit and any per-item processing oracles (which may fail on
individual items), a clean uncancelled processing pass ends with a
`processed_items` count equal to the counting pass's total — both passes
visit exactly the filtered directories and media-eligible files up to
the depth cutoff, and processing increments the counter exactly once per
visited entry. -/
theorem c4_processed_equals_total (maxDepth : Nat)
    (processDir processFile : String → Option MediaItem) (t : FSTree) :
    (scanDirectorySync maxDepth processDir processFile t).2
      = countItemsSync maxDepth t := by
  unfold scanDirectorySync countItemsSync
  rw [foldl_process_snd]

/-- The `ScanProgress` fields involved in the lifecycle claims
(`total_items`, `processed_items`, `status`, and whether `end_time` has
been assigned). -/
structure PState where
  totalItems : Nat
  processedItems : Nat
  status : String
  endTimeSet : Bool
  deriving Repr, DecidableEq

/-- `ScanProgress(scan_id=…, current_path=…, start_time=…)`: counters 0,
status `scanning`, no end time. -/
def initPState : PState := ⟨0, 0, "scanning", false⟩

/-- Observable writes to a scan's `ScanProgress`, in the order the
engine and external callers can interleave them. -/
inductive Ev where
  | setTotal (n : Nat)
  | processOne
  | stopScan
  | finishOk
  | finishErr
  deriving Repr, DecidableEq

/-- One observable write.  `setTotal` is `progress.total_items = total_items`
(line 233); `processOne` is one `progress.processed_items += 1` of the
walk, which breaks instead when it observes `status == "cancelled"`
(lines 385-427); `stopScan` is `stop_scan` (lines 801-813), acting only
on a scan in `scanning` status; `finishOk` is the unconditional
`progress.status = "completed"; progress.end_time = …` at lines 312-313;
`finishErr` is the `except` handler at lines 323-331. -/
def stepEv (s : PState) : Ev → PState
  | Ev.setTotal n => { s with totalItems := n }
  | Ev.processOne =>
      if s.status = "cancelled" then s
      else { s with processedItems := s.processedItems + 1 }
  | Ev.stopScan =>
      if s.status = "scanning" then
        { s with status := "cancelled", endTimeSet := true }
      else s
  | Ev.finishOk => { s with status := "completed", endTimeSet := true }
  | Ev.finishErr => { s with status := "error", endTimeSet := true }

/-- `ScanProgress.percentage`'s rounding: Python `round(x, 2)` over the
rationals (`round` is round-half-up rather than banker's rounding at
exact halves, which cannot change the bounds claims). -/
def round2 (q : ℚ) : ℚ := ((round (q * 100) : ℤ) : ℚ) / 100

/-- `ScanProgress.percentage` (lines 98-103):
`0` when `total_items == 0`, else
`round((processed_items / total_items) * 100, 2)`. -/
def percentage (s : PState) : ℚ :=
  if s.totalItems = 0 then 0
  else round2 ((s.processedItems : ℚ) / (s.totalItems : ℚ) * 100)

/-- `_count_items_sync` truncated at walk boundary `k`: the `except` at
line 361 returns the partial total accumulated when the walk's iterator
raises, which can only happen between yielded `(root, dirs, files)`
triples. -/
def countItemsCut (maxDepth : Nat) (t : FSTree) (k : Nat) : Nat :=
  ((prunedWalk maxDepth t).take k).foldl countNodeStep 0

/-- `_scan_directory_sync` truncated at the same walk boundary (on a
deterministic filesystem an iterator error strikes both passes at the
same yield; per-item failures are caught without stopping the walk). -/
def processedItemsCut (maxDepth : Nat)
    (processDir processFile : String → Option MediaItem) (t : FSTree) (k : Nat) : Nat :=
  (((prunedWalk maxDepth t).take k).foldl (processNodeStep processDir processFile) ([], 0)).2

/-- Even when the counting pass stops early at walk boundary `k`, the
processing pass truncated at the same boundary produces exactly that
many `processed_items` increments. -/
theorem processedItemsCut_eq_countItemsCut (maxDepth : Nat)
    (processDir processFile : String → Option MediaItem) (t : FSTree) (k : Nat) :
    processedItemsCut maxDepth processDir processFile t k
      = countItemsCut maxDepth t k := by
  unfold processedItemsCut countItemsCut
  rw [foldl_process_snd]

/-- A scan's observable write sequence: the background task first sets
`total_items` to the counting pass's (possibly truncated) total, then
performs at most that many `processed_items` increments — bounded by
`processedItemsCut_eq_countItemsCut`, and further reduced by
cancellation or a walk error — interleaved with any number of external
`stop_scan` calls, and ends by finishing (normally or through the fatal
`except`). -/
def ValidTrace (t : FSTree) (maxDepth k : Nat) (tr : List Ev) : Prop :=
  ∃ mid fin, tr = Ev.setTotal (countItemsCut maxDepth t k) :: (mid ++ [fin]) ∧
    (∀ e ∈ mid, e = Ev.processOne ∨ e = Ev.stopScan) ∧
    mid.count Ev.processOne ≤ countItemsCut maxDepth t k ∧
    (fin = Ev.finishOk ∨ fin = Ev.finishErr)

theorem stepEv_totalItems (s : PState) (e : Ev) (h : ∀ n, e ≠ Ev.setTotal n) :
    (stepEv s e).totalItems = s.totalItems := by
  cases e with
  | setTotal n => exact absurd rfl (h n)
  | processOne => by_cases hc : s.status = "cancelled" <;> simp [stepEv, hc]
  | stopScan => by_cases hc : s.status = "scanning" <;> simp [stepEv, hc]
  | finishOk => rfl
  | finishErr => rfl

theorem foldl_totalItems (l : List Ev) :
    ∀ s, (∀ n, Ev.setTotal n ∉ l) → (l.foldl stepEv s).totalItems = s.totalItems := by
  induction l with
  | nil => intro s _; rfl
  | cons x xs ih =>
      intro s h
      rw [List.foldl_cons, ih _ (fun n hn => h n (List.mem_cons_of_mem _ hn)),
        stepEv_totalItems]
      intro n hx
      exact h n (hx ▸ List.mem_cons_self x xs)

theorem stepEv_processedItems (s : PState) (e : Ev) :
    (stepEv s e).processedItems
      ≤ s.processedItems + (if e = Ev.processOne then 1 else 0) := by
  cases e with
  | setTotal n => simp [stepEv]
  | processOne => by_cases hc : s.status = "cancelled" <;> simp [stepEv, hc]
  | stopScan => by_cases hc : s.status = "scanning" <;> simp [stepEv, hc]
  | finishOk => simp [stepEv]
  | finishErr => simp [stepEv]

theorem foldl_processedItems (l : List Ev) :
    ∀ s, (l.foldl stepEv s).processedItems
      ≤ s.processedItems + l.count Ev.processOne := by
  induction l with
  | nil => intro s; simp
  | cons x xs ih =>
      intro s
      rw [List.foldl_cons]
      refine le_trans (ih (stepEv s x)) ?_
      have h := stepEv_processedItems s x
      have hc : (x :: xs).count Ev.processOne
          = xs.count Ev.processOne + (if x = Ev.processOne then 1 else 0) := by
        by_cases hx : x = Ev.processOne <;> simp [List.count_cons, hx]
      rw [hc]
      omega

theorem percentage_nonneg (s : PState) : 0 ≤ percentage s := by
  unfold percentage round2
  split
  · exact le_refl 0
  · have hq : (0:ℚ) ≤ (s.processedItems : ℚ) / (s.totalItems : ℚ) * 100 := by
      positivity
    have hr : (0:ℤ) ≤ round ((s.processedItems : ℚ) / (s.totalItems : ℚ) * 100 * 100) := by
      rw [round_eq]
      have : (0:ℚ) ≤ (s.processedItems : ℚ) / (s.totalItems : ℚ) * 100 * 100 + 1/2 := by
        positivity
      exact Int.le_floor.mpr (by push_cast; linarith)
    have : (0:ℚ) ≤ ((round ((s.processedItems : ℚ) / (s.totalItems : ℚ) * 100 * 100) : ℤ) : ℚ) := by
      exact_mod_cast hr
    positivity

theorem percentage_le_100 (s : PState) (h : s.processedItems ≤ s.totalItems) :
    percentage s ≤ 100 := by
  unfold percentage round2
  split
  · norm_num
  · rename_i ht
    have htpos : (0:ℚ) < (s.totalItems : ℚ) := by
      exact_mod_cast Nat.pos_of_ne_zero ht
    have hdiv : (s.processedItems : ℚ) / (s.totalItems : ℚ) ≤ 1 := by
      rw [div_le_one htpos]
      exact_mod_cast h
    have hq : (s.processedItems : ℚ) / (s.totalItems : ℚ) * 100 * 100 ≤ 10000 := by
      nlinarith [div_nonneg (Nat.cast_nonneg s.processedItems : (0:ℚ) ≤ _)
        (le_of_lt htpos)]
    have hr : (round ((s.processedItems : ℚ) / (s.totalItems : ℚ) * 100 * 100) : ℤ)
        ≤ 10000 := by
      rw [round_eq]
      have := Int.floor_mono (show (s.processedItems : ℚ) / (s.totalItems : ℚ) * 100 * 100 + 1/2
          ≤ 10000 + 1/2 by linarith)
      have h2 : ⌊(10000:ℚ) + 1/2⌋ = 10000 := by norm_num
      omega
    rw [div_le_iff₀ (by norm_num : (0:ℚ) < 100)]
    calc ((round ((s.processedItems : ℚ) / (s.totalItems : ℚ) * 100 * 100) : ℤ) : ℚ)
        ≤ 10000 := by exact_mod_cast hr
      _ ≤ 100 * 100 := by norm_num

/-- C8 (amended).  Percentage bounds: in every state reachable along a
valid scan trace, `0 ≤ percentage ≤ 100`, `percentage = 0` when
`total_items = 0`, otherwise `percentage` equals
`processed_items / total_items * 100` rounded to two decimal places, and
`processed_items` never exceeds `total_items` — including when the
counting pass stopped early at a walk boundary. -/
theorem c8_percentage_bounds (t : FSTree) (maxDepth k : Nat) (tr pre : List Ev)
    (hvalid : ValidTrace t maxDepth k tr) (hpre : pre <+: tr) :
    0 ≤ percentage (pre.foldl stepEv initPState) ∧
    percentage (pre.foldl stepEv initPState) ≤ 100 ∧
    ((pre.foldl stepEv initPState).totalItems = 0 →
      percentage (pre.foldl stepEv initPState) = 0) ∧
    ((pre.foldl stepEv initPState).totalItems ≠ 0 →
      percentage (pre.foldl stepEv initPState)
        = round2 (((pre.foldl stepEv initPState).processedItems : ℚ)
            / ((pre.foldl stepEv initPState).totalItems : ℚ) * 100)) ∧
    (pre.foldl stepEv initPState).processedItems
      ≤ (pre.foldl stepEv initPState).totalItems := by
  obtain ⟨mid, fin, htr, hmid, hcount, hfin⟩ := hvalid
  have hple : (pre.foldl stepEv initPState).processedItems
      ≤ (pre.foldl stepEv initPState).totalItems := by
    cases pre with
    | nil => simp [initPState]
    | cons e pre' =>
        obtain ⟨rest, hrest⟩ := hpre
        rw [htr] at hrest
        have hrest' : e :: (pre' ++ rest)
            = Ev.setTotal (countItemsCut maxDepth t k) :: (mid ++ [fin]) := by
          simpa using hrest
        injection hrest' with he hpre'
        have hsub : ∀ x ∈ pre', x ∈ mid ++ [fin] := by
          intro x hx
          rw [← hpre']
          exact List.mem_append_left _ hx
        have hnosettotal : ∀ n, Ev.setTotal n ∉ pre' := by
          intro n hn
          rcases List.mem_append.1 (hsub _ hn) with hm | hf
          · rcases hmid _ hm with h | h <;> simp at h
          · simp only [List.mem_singleton] at hf
            rcases hfin with h | h <;> rw [h] at hf <;> exact absurd hf (by simp)
        have htot : ((e :: pre').foldl stepEv initPState).totalItems
            = countItemsCut maxDepth t k := by
          rw [List.foldl_cons, he]
          rw [foldl_totalItems pre' _ hnosettotal]
          rfl
        have hcnt : pre'.count Ev.processOne ≤ countItemsCut maxDepth t k := by
          have h1 : List.Sublist pre' (pre' ++ rest) := List.sublist_append_left _ _
          have h2 : pre'.count Ev.processOne ≤ (mid ++ [fin]).count Ev.processOne := by
            rw [← hpre']
            exact List.Sublist.count_le h1 _
          have h3 : (mid ++ [fin]).count Ev.processOne = mid.count Ev.processOne := by
            rw [List.count_append]
            rcases hfin with h | h <;> simp [h]
          rw [h3] at h2
          exact le_trans h2 hcount
        have hproc : ((e :: pre').foldl stepEv initPState).processedItems
            ≤ pre'.count Ev.processOne := by
          rw [List.foldl_cons, he]
          have hh := foldl_processedItems pre'
            (stepEv initPState (Ev.setTotal (countItemsCut maxDepth t k)))
          simpa [stepEv, initPState] using hh
        rw [htot]
        exact le_trans hproc hcnt
  refine ⟨percentage_nonneg _, percentage_le_100 _ hple, ?_, ?_, hple⟩
  · intro h
    simp [percentage, h]
  · intro h
    simp [percentage, h]

/-- C8 witness: along the concrete trace that counts three media files
and processes one of them, the reachable state satisfies the bounds. -/
theorem c8_percentage_bounds_witness :
    0 ≤ percentage (([Ev.setTotal 3, Ev.processOne]).foldl stepEv initPState) ∧
    percentage (([Ev.setTotal 3, Ev.processOne]).foldl stepEv initPState) ≤ 100 ∧
    (([Ev.setTotal 3, Ev.processOne]).foldl stepEv initPState).processedItems
      ≤ (([Ev.setTotal 3, Ev.processOne]).foldl stepEv initPState).totalItems := by
  have h := c8_percentage_bounds (FSTree.node "root" [] ["a.mp4", "b.mp4", "c.mp4"])
    10 1 [Ev.setTotal 3, Ev.processOne, Ev.stopScan, Ev.finishOk]
    [Ev.setTotal 3, Ev.processOne]
    ⟨[Ev.processOne, Ev.stopScan], Ev.finishOk, by decide, by decide, by decide,
      Or.inl rfl⟩
    ⟨[Ev.stopScan, Ev.finishOk], by decide⟩
  exact ⟨h.1, h.2.1, h.2.2.2.2⟩

/-- C8 counterexample to the claim's exact-formula clause: in the
reachable state with one of three items processed, the stored percentage
is the two-decimal rounding `33.33`, not `processed/total*100 = 100/3`. -/
theorem c8_percentage_not_exact_ratio :
    percentage (([Ev.setTotal 3, Ev.processOne]).foldl stepEv initPState) = 3333/100 ∧
    ((([Ev.setTotal 3, Ev.processOne]).foldl stepEv initPState).processedItems : ℚ)
        / ((([Ev.setTotal 3, Ev.processOne]).foldl stepEv initPState).totalItems : ℚ) * 100
      ≠ 3333/100 := by
  have hs : ([Ev.setTotal 3, Ev.processOne]).foldl stepEv initPState
      = ⟨3, 1, "scanning", false⟩ := by decide
  constructor
  · rw [hs]
    unfold percentage round2
    norm_num
    rw [round_eq]
    norm_num
  · rw [hs]
    norm_num

/-- C3 refuted.  A terminal status is not permanent: along a valid scan
trace, `stop_scan` moves the scan from `scanning` to the terminal status
`cancelled` (setting `end_time`), yet when the scan's own background
task finishes its walk it unconditionally overwrites the status with
`completed` (lines 312-313). -/
theorem c3_cancelled_overwritten_by_completion :
    ValidTrace (FSTree.node "root" [] ["a.mp4", "b.mp4", "c.mp4"]) 10 1
      [Ev.setTotal 3, Ev.processOne, Ev.stopScan, Ev.finishOk] ∧
    (([Ev.setTotal 3, Ev.processOne, Ev.stopScan]).foldl stepEv initPState).status
      = "cancelled" ∧
    (([Ev.setTotal 3, Ev.processOne, Ev.stopScan]).foldl stepEv initPState).endTimeSet
      = true ∧
    (([Ev.setTotal 3, Ev.processOne, Ev.stopScan, Ev.finishOk]).foldl stepEv
        initPState).status = "completed" := by
  refine ⟨⟨[Ev.processOne, Ev.stopScan], Ev.finishOk, by decide, by decide, by decide,
    Or.inl rfl⟩, by decide, by decide, by decide⟩

/-- Value of a run of decimal digits (Python `int(...)` on a captured
group). -/
def digitsToNat (l : List Char) : Nat :=
  l.foldl (fun a c => a * 10 + (c.toNat - 48)) 0

/-- Does the pattern `\(\d{4}\)` match starting exactly at position `i`
(an opening parenthesis, exactly four digits, a closing parenthesis)? -/
def yearMatchAt (l : List Char) (i : Nat) : Bool :=
  match l.drop i with
  | '(' :: a :: b :: c :: d :: ')' :: _ =>
      a.isDigit && b.isDigit && c.isDigit && d.isDigit
  | _ => false

/-- The captured year when a year marker matches at `i`. -/
def yearValueAt (l : List Char) (i : Nat) : Nat :=
  digitsToNat ((l.drop (i + 1)).take 4)

/-- Does `S(\d+)E(\d+)` with `re.IGNORECASE` match starting exactly at
position `i`?  The greedy digit run before `E` cannot backtrack usefully
because digits and `E` are disjoint, so the match is the maximal digit
runs; returns the captured `(season, episode)`. -/
def episodeMatchAt (l : List Char) (i : Nat) : Option (Nat × Nat) :=
  match l.drop i with
  | [] => none
  | s :: rest =>
      if s = 'S' ∨ s = 's' then
        let ds := rest.takeWhile Char.isDigit
        if ds.isEmpty then none
        else
          match rest.drop ds.length with
          | [] => none
          | e :: rest2 =>
              if e = 'E' ∨ e = 'e' then
                let es := rest2.takeWhile Char.isDigit
                if es.isEmpty then none
                else some (digitsToNat ds, digitsToNat es)
              else none
      else none

/-- Left-to-right scan from position `i` with `fuel` positions left:
the index of the first position whose predicate holds. -/
def findFirstAux (p : Nat → Bool) : Nat → Nat → Option Nat
  | _, 0 => none
  | i, fuel + 1 => if p i then some i else findFirstAux p (i + 1) fuel

/-- `re.search` semantics: the leftmost position in `[0, n)` at which
the pattern matches. -/
def findFirst (n : Nat) (p : Nat → Bool) : Option Nat :=
  findFirstAux p 0 n

/-- Start position of `re.search(r'\((\d{4})\)', l)`. -/
def yearIdxOf (l : List Char) : Option Nat :=
  findFirst l.length (yearMatchAt l)

/-- Start position of `re.search(r'S(\d+)E(\d+)', l, re.IGNORECASE)`. -/
def epIdxOf (l : List Char) : Option Nat :=
  findFirst l.length (fun i => (episodeMatchAt l i).isSome)

/-- Python `str.strip()`: drop whitespace from both ends. -/
def pyStrip (l : List Char) : List Char :=
  ((l.dropWhile Char.isWhitespace).reverse.dropWhile Char.isWhitespace).reverse

/-- Result of `_parse_filename`:
`{'title': …, 'year': …, 'season': …, 'episode': …}`. -/
structure ParsedInfo where
  title : String
  year : Option Nat
  season : Option Nat
  episode : Option Nat
  deriving DecidableEq, Repr

/-- `_parse_filename` (lines 708-741): strip the extension, search for
the first year marker and the first episode marker, capture their
groups, and take the title as the stripped prefix before the year match
when there is one, else before the episode match, else the whole
extension-stripped name (unstripped). -/
def parseFilename (filename : String) : ParsedInfo :=
  let nameWithoutExt := (splitext filename.data).1
  let yearIdx := yearIdxOf nameWithoutExt
  let epIdx := epIdxOf nameWithoutExt
  let se := epIdx.bind (episodeMatchAt nameWithoutExt)
  { title :=
      match yearIdx with
      | some i => String.mk (pyStrip (nameWithoutExt.take i))
      | none =>
          match epIdx with
          | some j => String.mk (pyStrip (nameWithoutExt.take j))
          | none => String.mk nameWithoutExt
    year := yearIdx.map (yearValueAt nameWithoutExt)
    season := se.map (·.1)
    episode := se.map (·.2) }

/-- The claim's title rule, from the spec's words: the stripped prefix
before whichever marker — year or episode — occurs first in the
extension-stripped name. -/
def claimTitle (filename : String) : String :=
  let n := (splitext filename.data).1
  match yearIdxOf n, epIdxOf n with
  | some i, some j =>
      if i ≤ j then String.mk (pyStrip (n.take i))
      else String.mk (pyStrip (n.take j))
  | some i, none => String.mk (pyStrip (n.take i))
  | none, some j => String.mk (pyStrip (n.take j))
  | none, none => String.mk n

theorem findFirstAux_eq_some (p : Nat → Bool) :
    ∀ (fuel i j : Nat), findFirstAux p i fuel = some j →
      p j = true ∧ ∀ m, i ≤ m → m < j → p m = false := by
  intro fuel
  induction fuel with
  | zero => intro i j h; simp [findFirstAux] at h
  | succ f ih =>
      intro i j h
      unfold findFirstAux at h
      by_cases hp : p i
      · rw [if_pos hp] at h
        injection h with h
        subst h
        exact ⟨hp, fun m h1 h2 => absurd (lt_of_le_of_lt h1 h2) (lt_irrefl _)⟩
      · rw [if_neg hp] at h
        obtain ⟨hpj, hmin⟩ := ih (i + 1) j h
        refine ⟨hpj, fun m h1 h2 => ?_⟩
        by_cases hmi : m = i
        · subst hmi
          simpa using hp
        · exact hmin m (by omega) h2

theorem findFirstAux_eq_none (p : Nat → Bool) :
    ∀ (fuel i : Nat), findFirstAux p i fuel = none →
      ∀ m, i ≤ m → m < i + fuel → p m = false := by
  intro fuel
  induction fuel with
  | zero => intro i _ m h1 h2; omega
  | succ f ih =>
      intro i h m h1 h2
      unfold findFirstAux at h
      by_cases hp : p i
      · rw [if_pos hp] at h; exact absurd h (by simp)
      · rw [if_neg hp] at h
        by_cases hmi : m = i
        · subst hmi; simpa using hp
        · exact ih (i + 1) h m (by omega) (by omega)

theorem yearMatchAt_oob (l : List Char) (i : Nat) (h : l.length ≤ i) :
    yearMatchAt l i = false := by
  have hd : l.drop i = [] := List.drop_eq_nil_of_le h
  unfold yearMatchAt
  rw [hd]

theorem episodeMatchAt_oob (l : List Char) (i : Nat) (h : l.length ≤ i) :
    episodeMatchAt l i = none := by
  have hd : l.drop i = [] := List.drop_eq_nil_of_le h
  unfold episodeMatchAt
  rw [hd]

/-- C9 (amended).  Filename parsing title rule with the source's marker
precedence: the title is the whitespace-stripped prefix of the
extension-stripped name preceding the leftmost year marker when one
exists — even when an episode marker occurs earlier — else preceding the
leftmost episode marker, else the whole extension-stripped name; the
search indices used are genuinely the leftmost matches. -/
theorem c9_title_rule (filename : String) :
    (∀ i, yearIdxOf (splitext filename.data).1 = some i →
      (parseFilename filename).title
        = String.mk (pyStrip ((splitext filename.data).1.take i)) ∧
      yearMatchAt (splitext filename.data).1 i = true ∧
      ∀ j < i, yearMatchAt (splitext filename.data).1 j = false) ∧
    (yearIdxOf (splitext filename.data).1 = none →
      ∀ i, yearMatchAt (splitext filename.data).1 i = false) ∧
    (yearIdxOf (splitext filename.data).1 = none →
      ∀ j, epIdxOf (splitext filename.data).1 = some j →
      (parseFilename filename).title
        = String.mk (pyStrip ((splitext filename.data).1.take j)) ∧
      (episodeMatchAt (splitext filename.data).1 j).isSome = true ∧
      ∀ m < j, (episodeMatchAt (splitext filename.data).1 m).isSome = false) ∧
    (yearIdxOf (splitext filename.data).1 = none →
      epIdxOf (splitext filename.data).1 = none →
      (parseFilename filename).title = String.mk (splitext filename.data).1) := by
  refine ⟨?_, ?_, ?_, ?_⟩
  · intro i h
    obtain ⟨hp, hmin⟩ := findFirstAux_eq_some _ _ _ _ h
    exact ⟨by simp [parseFilename, h], hp, fun j hj => hmin j (Nat.zero_le j) hj⟩
  · intro h i
    by_cases hb : (splitext filename.data).1.length ≤ i
    · exact yearMatchAt_oob _ _ hb
    · exact findFirstAux_eq_none _ _ _ h i (Nat.zero_le i) (by omega)
  · intro hy j h
    obtain ⟨hp, hmin⟩ := findFirstAux_eq_some _ _ _ _ h
    exact ⟨by simp [parseFilename, hy, h], hp, fun m hm => hmin m (Nat.zero_le m) hm⟩
  · intro hy he
    simp [parseFilename, hy, he]

/-- C9 witness: on `Show S01E02 (2020).mkv` the year marker is at
position 12 of the extension-stripped name and the parsed title is the
stripped prefix before it, `"Show S01E02"`. -/
theorem c9_title_rule_witness :
    (parseFilename "Show S01E02 (2020).mkv").title = "Show S01E02" ∧
    yearMatchAt (splitext ("Show S01E02 (2020).mkv").data).1 12 = true := by
  have h := (c9_title_rule "Show S01E02 (2020).mkv").1 12 (by decide)
  refine ⟨h.1.trans (by decide), h.2.1⟩

/-- C9 counterexample to the claim as stated: in
`Show S01E02 (2020).mkv` the episode marker (position 5) occurs before
the year marker (position 12), so the claim's whichever-occurs-first
rule yields `"Show"`, but the source gives the year marker precedence
and yields `"Show S01E02"`. -/
theorem c9_claim_counterexample :
    claimTitle "Show S01E02 (2020).mkv" = "Show" ∧
    (parseFilename "Show S01E02 (2020).mkv").title = "Show S01E02" ∧
    (parseFilename "Show S01E02 (2020).mkv").title
      ≠ claimTitle "Show S01E02 (2020).mkv" := by
  refine ⟨by decide, by decide, by decide⟩

end MediaManager
